import Mathlib

/-
Verification of the limix single-trait scanning pipeline.

The development shallowly embeds `limix/qtl/_st_scan.py` (functions
`st_scan`, `_perform_lmm`, `_perform_glmm`) together with the fixed
configuration table `limix/_data/_conf.py`.  Heavy numerical routines
(`numpy_sugar.linalg.economic_qs`, `glimix_core.lmm.LMM`,
`glimix_core.glmm.GLMMExpFam`, `glimix_core.glmm.GLMMNormal`) are external
packages; they are abstracted behind an `Externals` record of pure
functions, matching the narrow contracts the specification assigns to
them.  Repository helpers that are not part of the provided sources
(`conform_dataset`, `assert_likelihood`, `normalise_extreme_values`, the
result factory) are modelled from the specification, as indicated on each
definition.

Numbers produced by the external fitting code are modelled as rationals;
caller-supplied array entries are modelled by `PyFloat`, which can also be
a NaN or an infinity so that the finiteness checks are meaningful.  A run
of the pipeline returns its result together with a trace of the
observable events (display output, dataset conformance, spectral
factorization, model fits), which lets temporal claims about the pipeline
be stated as properties of the trace.

The module as given has a defect at line 197: it calls
`ST_ScanResultFactory`, while line 8 imports only `ScanResultFactory`, so
the name is unbound at module level and Python raises a `NameError` there
on every run that reaches it.  The embedding models this name resolution
explicitly (`moduleBindings`): the factory construction and everything
after it (dispatch, fits, report) are translated but sit in a branch that
never executes.
-/

set_option linter.unusedVariables false

namespace Limix

/-- A floating-point scalar as seen by the validation code: either a finite
value (modelled as a rational) or one of the non-finite IEEE values. -/
inductive PyFloat where
  | val (q : ℚ)
  | nan
  | inf
  | ninf
deriving DecidableEq, Repr

/-- A one-dimensional array. -/
abbrev Vec := List PyFloat

/-- A two-dimensional array, row major. -/
abbrev Mat := List (List PyFloat)

/-- PyFloat.isFinite is true exactly on finite values, mirroring the IEEE
finiteness predicate used by the all-finite check. -/
def PyFloat.isFinite : PyFloat → Bool
  | .val _ => true
  | _ => false

/-- The all-finite check on vectors (contract of `numpy_sugar.is_all_finite`). -/
def is_all_finite (v : Vec) : Bool := v.all PyFloat.isFinite

/-- The all-finite check on matrices (contract of `numpy_sugar.is_all_finite`). -/
def is_all_finite_mat (m : Mat) : Bool := m.all (fun r => r.all PyFloat.isFinite)

/-- The allowed likelihood names, from `CONF["likelihoods"]` in
`limix/_data/_conf.py`. -/
def CONF_likelihoods : List String :=
  ["normal", "bernoulli", "probit", "binomial", "poisson"]

/-- The error taxonomy of the specification.  The Python code raises
`ValueError` (for non-finite inputs, with the quoted messages) and the
conformance/likelihood helpers raise their own errors; the constructors
follow the names the specification gives these failure classes. -/
inductive Err where
  | InvalidLikelihoodError (msg : String)
  | DimensionMismatchError (msg : String)
  | NonFiniteInputError (msg : String)
  | NameError (msg : String)
deriving DecidableEq, Repr

/-- A resolved likelihood: lower-cased name plus the auxiliary arrays
carried in the tuple (trial counts for the binomial likelihood). -/
abbrev Lik := String × List Vec

/-- The `lik` argument as the caller supplies it: either a bare string or a
tuple of a name and auxiliary arrays. -/
inductive LikInput where
  | str (s : String)
  | tup (name : String) (aux : List Vec)
deriving DecidableEq, Repr

/-- Python `str.lower` on the ASCII likelihood names, as a computable map
over the character list. -/
def strLower (s : String) : String := ⟨s.data.map Char.toLower⟩

/-- Lines 165-169 of `_st_scan.py`: a bare string is wrapped into a
one-element tuple, the name is lower-cased, and the tuple is rebuilt with
the lower-cased name in front of the unchanged tail. -/
def likResolve (lik : LikInput) : Lik :=
  match lik with
  | .str s => (strLower s, [])
  | .tup name aux => (strLower name, aux)

/-- Observable events of a scan run, used to state temporal claims. -/
inductive Event where
  | display (msg : String)
  | conform
  | factorize
  | lmmFit
  | lmmFastScan
  | glmmExpFamFit
  | siteExtract
  | glmmNormalFit
  | setScale (s : ℚ)
  | normalFastScan
deriving DecidableEq, Repr

/-- Event.isFit is true exactly on invocations of one of the model-fitting
routines (`LMM.fit`, `GLMMExpFam.fit`, `GLMMNormal.fit`). -/
def Event.isFit : Event → Bool
  | .lmmFit => true
  | .glmmExpFamFit => true
  | .glmmNormalFit => true
  | _ => false

/-- Event.isDisplay is true exactly on progress/summary display events. -/
def Event.isDisplay : Event → Bool
  | .display _ => true
  | _ => false

/-- A spectral decomposition `(Q, S)` of the covariance, the opaque result
of `economic_qs` (specification section 3). -/
structure QSDecomp where
  Q : List (List ℚ)
  S0 : List ℚ
deriving DecidableEq, Repr

/-- The state of a fitted `glimix_core.lmm.LMM`, restricted to the fields
the pipeline reads. -/
structure LMMState where
  lml : ℚ
  beta : List ℚ
  v0 : ℚ
  v1 : ℚ
deriving DecidableEq, Repr

/-- The state of a fitted `glimix_core.glmm.GLMMExpFam`, restricted to the
fields a client could read; the pipeline only reads the site parameters
`site.eta` and `site.tau`. -/
structure ExpFamState where
  lml : ℚ
  beta : List ℚ
  v0 : ℚ
  v1 : ℚ
  siteEta : List ℚ
  siteTau : List ℚ
deriving DecidableEq, Repr

/-- The state of a fitted `glimix_core.glmm.GLMMNormal`, restricted to the
fields the pipeline reads. -/
structure GNormalState where
  beta : List ℚ
  v0 : ℚ
  v1 : ℚ
deriving DecidableEq, Repr

/-- The external numerical services consumed by the pipeline, as pure
functions (specification section 6: spectral decomposition, fitting
routines exposing a fast-scan evaluator, and the value-normalization pass
of `limix/qc/_lik.py` whose numeric formula is outside the sources).
Their progress output is display-only by contract, so the `verbose` flag
forwarded to them is not a parameter of the numerical results. -/
structure Externals where
  economic_qs : Mat → QSDecomp
  lmmFit : Vec → Mat → Option QSDecomp → LMMState
  lmmFastScan : LMMState → Mat → List ℚ × List ℚ
  glmmExpFamFit : Vec → Lik → Mat → Option QSDecomp → ExpFamState
  glmmNormalFit : List ℚ → List ℚ → Mat → Option QSDecomp → GNormalState
  normalNullLml : GNormalState → ℚ → ℚ
  normalFastScan : GNormalState → ℚ → Mat → List ℚ × List ℚ
  normaliseVals : String → Vec → Vec

/-- The aligned dataset produced by conformance (specification section 3). -/
structure Dataset where
  y : Vec
  M : Mat
  covariate : List String
  G : Mat
  candidate : List String
  K : Option Mat
deriving DecidableEq, Repr

/-- A single column of ones, the synthesized offset covariate. -/
def onesColumn (n : Nat) : Mat := List.replicate n [PyFloat.val 1]

/-- Modelled from the spec: `conform_dataset` from `limix/_data` is not
among the provided sources.  Specification section 4.1: with unlabeled
array inputs, positional alignment by length is used and all inputs must
have the same sample count, failing with a `DimensionMismatchError`
otherwise; an omitted `M` synthesizes a single offset column of ones; the
caller inputs are not mutated and `G` columns are passed through in
order. -/
def conform_dataset (y : Vec) (M : Option (Mat × List String))
    (G : Mat × List String) (K : Option Mat) : Except Err Dataset :=
  let n := y.length
  let Mp := match M with
    | none => (onesColumn n, ["offset"])
    | some m => m
  if Mp.1.length ≠ n then
    .error (.DimensionMismatchError "covariates sample count mismatch")
  else if G.1.length ≠ n then
    .error (.DimensionMismatchError "genotype sample count mismatch")
  else
    match K with
    | some k =>
      if k.length ≠ n ∨ k.any (fun r => r.length ≠ n) then
        .error (.DimensionMismatchError "covariance shape mismatch")
      else
        .ok ⟨y, Mp.1, Mp.2, G.1, G.2, some k⟩
    | none => .ok ⟨y, Mp.1, Mp.2, G.1, G.2, none⟩

/-- Modelled from the spec: `assert_likelihood` from `limix/_data` is not
among the provided sources.  It receives only the lower-cased likelihood
name (line 170 of `_st_scan.py`) and checks membership in the fixed
allowed set `CONF["likelihoods"]`, failing with the specification's
`InvalidLikelihoodError` otherwise. -/
def assert_likelihood (name : String) : Except Err Unit :=
  if name ∈ CONF_likelihoods then .ok () else .error (.InvalidLikelihoodError name)

/-- Modelled from the spec: `normalise_extreme_values` from
`limix/qc/_lik.py` is not among the provided sources.  Specification
section 4.2: the resolver requires, for the binomial likelihood, exactly
one auxiliary trial-count array of length N (missing or surplus auxiliary
data is an `InvalidLikelihoodError`, a wrong length a
`DimensionMismatchError`) and forbids auxiliary data for every other
likelihood; it then applies a deterministic value-normalization pass over
`y`, whose numeric formula is abstracted as `Externals.normaliseVals`. -/
def normalise_extreme_values (ext : Externals) (y : Vec) (lik : Lik) :
    Except Err Vec :=
  if lik.1 = "binomial" then
    match lik.2 with
    | [] => .error (.InvalidLikelihoodError "binomial requires a trial count array")
    | [t] =>
      if t.length = y.length then .ok (ext.normaliseVals lik.1 y)
      else .error (.DimensionMismatchError "trial count array length mismatch")
    | _ => .error (.InvalidLikelihoodError "binomial takes exactly one trial count array")
  else
    if lik.2 = [] then .ok (ext.normaliseVals lik.1 y)
    else .error (.InvalidLikelihoodError "auxiliary parameter forbidden for this likelihood")

/-- The null-model summary stored by the factory, in the argument order of
`set_null(lml, beta, v1, v0)`. -/
structure NullState where
  lml : ℚ
  beta : List ℚ
  v1 : ℚ
  v0 : ℚ
deriving DecidableEq, Repr

/-- One per-candidate test record, added as `add_test(index, effsize, lml)`. -/
structure CandidateResult where
  index : Nat
  effsize : ℚ
  altLml : ℚ
deriving DecidableEq, Repr

/-- Modelled from the spec: the result factory from `limix/qtl/_result.py`
is not among the provided sources.  The use site at line 197 names it
`ST_ScanResultFactory`, but line 8 imports only `ScanResultFactory`, so
in the module as given this name is unbound and the construction is never
reached (see `moduleBindings`).  Specification sections 3 and 4.6: it
collects the likelihood, the covariate and candidate labels, the null
state and the ordered per-candidate results into an immutable report. -/
structure ST_ScanResultFactory where
  lik : Lik
  covariates : List String
  candidates : List String
  nullState : Option NullState
  tests : List CandidateResult
deriving DecidableEq, Repr

/-- Factory construction `ST_ScanResultFactory(lik, M.covariate, G.candidate)`. -/
def ST_ScanResultFactory.mk0 (lik : Lik) (cov cand : List String) :
    ST_ScanResultFactory :=
  ⟨lik, cov, cand, none, []⟩

/-- Factory method `set_null(null_lml, beta, v1, v0)`. -/
def ST_ScanResultFactory.set_null (r : ST_ScanResultFactory)
    (lml : ℚ) (beta : List ℚ) (v1 v0 : ℚ) : ST_ScanResultFactory :=
  { r with nullState := some ⟨lml, beta, v1, v0⟩ }

/-- Factory method `add_test(i, effsize, alt_lml)`, appending in call order. -/
def ST_ScanResultFactory.add_test (r : ST_ScanResultFactory)
    (i : Nat) (effsize altLml : ℚ) : ST_ScanResultFactory :=
  { r with tests := r.tests ++ [⟨i, effsize, altLml⟩] }

/-- The immutable scan report (specification section 3). -/
structure ScanReport where
  lik : Lik
  covariates : List String
  candidates : List String
  nullState : Option NullState
  tests : List CandidateResult
deriving DecidableEq, Repr

/-- Factory method `create()`. -/
def ST_ScanResultFactory.create (r : ST_ScanResultFactory) : ScanReport :=
  ⟨r.lik, r.covariates, r.candidates, r.nullState, r.tests⟩

/-- The loop `for i, data in enumerate(zip(alt_lmls, effsizes)):
r.add_test(i, data[1], data[0])` shared by both perform functions. -/
def addTests (r : ST_ScanResultFactory) (ps : List (ℚ × ℚ)) :
    ST_ScanResultFactory :=
  ps.enum.foldl (fun acc ip => acc.add_test ip.1 ip.2.2 ip.2.1) r

/-- Python `ndarray.ravel` on a one-dimensional array. -/
def ravel (v : Vec) : Vec := v

/-- Embedding of `_perform_lmm` (lines 210-230 of `_st_scan.py`): fit the
linear mixed model, record the null state, fast-scan all candidate
columns, and create the report.  The returned event list records the fit
and scan invocations in source order. -/
def _perform_lmm (ext : Externals) (r : ST_ScanResultFactory) (y : Vec)
    (M : Mat) (QS : Option QSDecomp) (G : Mat) (verbose : Bool) :
    ScanReport × List Event :=
  let lmm := ext.lmmFit y M QS
  let null_lml := lmm.lml
  let beta := lmm.beta
  let r := r.set_null null_lml beta lmm.v1 lmm.v0
  let scanOut := ext.lmmFastScan lmm G
  let r := addTests r (scanOut.1.zip scanOut.2)
  (r.create, [Event.lmmFit, Event.lmmFastScan])

/-- Embedding of `_perform_glmm` (lines 233-260 of `_st_scan.py`): fit the
exact exponential-family model, extract the site parameters `eta` and
`tau`, fit the Normal pseudo-model on them, anchor its fast scanner at
scale 1.0, take the null statistics from the pseudo-model, fast-scan all
candidate columns, and create the report.  The `K` parameter is received
but never read, as in the source. -/
def _perform_glmm (ext : Externals) (r : ST_ScanResultFactory) (y : Vec)
    (lik : Lik) (M : Mat) (K : Option Mat) (QS : Option QSDecomp) (G : Mat)
    (verbose : Bool) : ScanReport × List Event :=
  let glmm := ext.glmmExpFamFit (ravel y) lik M QS
  let eta := glmm.siteEta
  let tau := glmm.siteTau
  let gnormal := ext.glmmNormalFit eta tau M QS
  let beta := gnormal.beta
  let scale : ℚ := 1
  let null_lml := ext.normalNullLml gnormal scale
  let r := r.set_null null_lml beta gnormal.v1 gnormal.v0
  let scanOut := ext.normalFastScan gnormal scale G
  let r := addTests r (scanOut.1.zip scanOut.2)
  (r.create,
    [Event.glmmExpFamFit, Event.siteExtract, Event.glmmNormalFit,
     Event.setScale scale, Event.normalFastScan])

/-- The module-level names bound in `_st_scan.py` by its import statements
(lines 1-8) and its top-level defs: `import sys` binds `sys`, and each
`from X import Y` binds exactly `Y` — in particular line 8,
`from ._result import ScanResultFactory`, binds `ScanResultFactory` and
nothing else.  The name `ST_ScanResultFactory` used at line 197 is not
among them, so Python name resolution fails there with a `NameError`. -/
def moduleBindings : List String :=
  ["sys", "session_line", "conform_dataset", "session_block",
   "assert_likelihood", "normalise_extreme_values", "ScanResultFactory",
   "st_scan", "_perform_lmm", "_perform_glmm"]

/-- The display events of `session_block("qtl analysis", ...)` and
`session_line("Normalising input... ", ...)`, both disabled when not
verbose. -/
def sessionEvents (verbose : Bool) : List Event :=
  if verbose then [Event.display "qtl analysis", Event.display "Normalising input... "]
  else []

/-- Lines 188-193 of `_st_scan.py`: when `K` is present it must be
all-finite (else the non-finite-input error with the quoted message) and
is factorized by `economic_qs`; when absent, `QS` is `None` and no
factorization happens. -/
def covarianceStep (ext : Externals) (K : Option Mat) :
    Except Err (Option QSDecomp × List Event) :=
  match K with
  | some k =>
    if !is_all_finite_mat k then
      .error (.NonFiniteInputError "Covariate matrix must have finite values only.")
    else
      .ok (some (ext.economic_qs k), [Event.factorize])
  | none => .ok (none, [])

/-- Embedding of `st_scan` (lines 165-207 of `_st_scan.py`).  Returns the
call outcome together with the trace of observable events.  Control flow
in source order: resolve and validate the likelihood name, conform the
dataset, check finiteness of outcome, covariates, and covariance,
factorize the covariance, and normalise extreme outcome values.  Line 197
then evaluates the name `ST_ScanResultFactory`, which the module never
binds (line 8 imports `ScanResultFactory` instead, see `moduleBindings`),
so Python raises a `NameError` there; the factory construction, the
dispatch at line 199 to the LMM or GLMM path, and the report printing are
translated in the branch guarded by that name being bound, which never
executes. -/
def st_scan (ext : Externals) (G : Mat) (glab : List String) (y : Vec)
    (lik : LikInput) (K : Option Mat) (M : Option Mat) (mlab : List String)
    (verbose : Bool) : Except Err ScanReport × List Event :=
  let likt := likResolve lik
  let lik_name := likt.1
  match assert_likelihood lik_name with
  | .error e => (.error e, [])
  | .ok _ =>
    let evs := sessionEvents verbose ++ [Event.conform]
    match conform_dataset y (M.map (fun m => (m, mlab))) (G, glab) K with
    | .error e => (.error e, evs)
    | .ok data =>
      if !is_all_finite data.y then
        (.error (.NonFiniteInputError "Outcome must have finite values only."), evs)
      else if !is_all_finite_mat data.M then
        (.error (.NonFiniteInputError "Covariates must have finite values only."), evs)
      else
        match covarianceStep ext data.K with
        | .error e => (.error e, evs)
        | .ok qsev =>
          let QS := qsev.1
          let evs := evs ++ qsev.2
          match normalise_extreme_values ext data.y likt with
          | .error e => (.error e, evs)
          | .ok ynorm =>
            if "ST_ScanResultFactory" ∈ moduleBindings then
              let r := ST_ScanResultFactory.mk0 likt data.covariate data.candidate
              if lik_name = "normal" then
                let out := _perform_lmm ext r ynorm data.M QS data.G verbose
                (.ok out.1,
                  evs ++ out.2 ++ (if verbose then [Event.display "report"] else []))
              else
                let out := _perform_glmm ext r ynorm likt data.M data.K QS data.G verbose
                (.ok out.1,
                  evs ++ out.2 ++ (if verbose then [Event.display "report"] else []))
            else
              (.error (.NameError "name ST_ScanResultFactory is not defined"), evs)

/-- Number of columns of a row-major rectangular array. -/
def ncols (m : Mat) : Nat := (m.headD []).length

/-- The raw likelihood name as supplied by the caller, before any
normalization. -/
def LikInput.rawName : LikInput → String
  | .str s => s
  | .tup name _ => name

/-- True when some spectral factorization happens strictly before the
site-parameter derivation in a trace. -/
def factorizeBeforeSiteDerivation (tr : List Event) : Bool :=
  (tr.takeWhile (fun e => e ≠ Event.siteExtract)).contains Event.factorize

/-- The deferral property claimed of the non-Normal path: the spectral
factorization is deferred until after the site parameters are derived,
that is, no factorization event occurs before the site-parameter
derivation. -/
def factorizeDeferredAfterSiteDerivation (tr : List Event) : Bool :=
  !factorizeBeforeSiteDerivation tr

/-- True when no model-fitting event occurs before the first
factorization event of a trace. -/
def noFitBeforeFactorize (tr : List Event) : Bool :=
  (tr.takeWhile (fun e => e ≠ Event.factorize)).all (fun e => !e.isFit)

/-- Events produced only by the dispatch at line 199 and the perform
functions behind it (exact LMM path or two-stage path). -/
def Event.isDispatchPath : Event → Bool
  | .lmmFit => true
  | .lmmFastScan => true
  | .glmmExpFamFit => true
  | .siteExtract => true
  | .glmmNormalFit => true
  | .setScale _ => true
  | .normalFastScan => true
  | _ => false

/-- True exactly when a pipeline outcome is a successfully returned
report. -/
def resultOk : Except Err ScanReport → Bool
  | .ok _ => true
  | _ => false

/-
A store of arrays, modelling Python object identity for the caller-supplied
arrays.  `st_scanS` is the store-level reading of `st_scan`: it resolves
its array arguments in the store, runs the pipeline, and allocates the new
aligned arrays that dataset conformance builds.  The translation of the
source performs no `writeArr`: no statement of `st_scan`, `_perform_lmm`
or `_perform_glmm` assigns into a caller array.
-/

/-- A stored array object. -/
inductive ArrVal where
  | vec (v : Vec)
  | mat (m : Mat)
deriving DecidableEq, Repr

/-- A store of array objects with a fresh-allocation counter. -/
structure Store where
  mem : List (Nat × ArrVal)
  next : Nat
deriving DecidableEq, Repr

/-- Store lookup. -/
def Store.read (σ : Store) (i : Nat) : Option ArrVal :=
  (σ.mem.find? (fun p => p.1 == i)).map (fun p => p.2)

/-- Allocation of a fresh array object. -/
def Store.alloc (σ : Store) (v : ArrVal) : Store :=
  ⟨(σ.next, v) :: σ.mem, σ.next + 1⟩

/-- In-place overwrite of an array object.  The pipeline translation never
uses it: the source contains no in-place array assignment. -/
def Store.writeArr (σ : Store) (i : Nat) (v : ArrVal) : Store :=
  ⟨σ.mem.map (fun p => if p.1 == i then (i, v) else p), σ.next⟩

/-- Well-formedness: every allocated identifier is below the counter. -/
def Store.WF (σ : Store) : Prop := ∀ p ∈ σ.mem, p.1 < σ.next

/-- Read an identifier as a vector. -/
def readVec (σ : Store) (i : Nat) : Option Vec :=
  match σ.read i with
  | some (.vec v) => some v
  | _ => none

/-- Read an identifier as a matrix. -/
def readMat (σ : Store) (i : Nat) : Option Mat :=
  match σ.read i with
  | some (.mat m) => some m
  | _ => none

/-- Store-level reading of `st_scan`: array arguments are identifiers into
the store.  The caller arrays are only ever read; dataset conformance
allocates the new aligned array objects it returns (fresh Python objects),
and no step writes to any store cell. -/
def st_scanS (ext : Externals) (σ : Store) (Gi : Nat) (glab : List String)
    (yi : Nat) (lik : LikInput) (Ki : Option Nat) (Mi : Option Nat)
    (mlab : List String) (verbose : Bool) : Except Err ScanReport × Store :=
  match readMat σ Gi, readVec σ yi with
  | some G, some y =>
    let K : Option Mat := match Ki with
      | none => none
      | some i => readMat σ i
    let M : Option Mat := match Mi with
      | none => none
      | some i => readMat σ i
    let out := st_scan ext G glab y lik K M mlab verbose
    let σ1 := match assert_likelihood (likResolve lik).1 with
      | .error _ => σ
      | .ok _ =>
        match conform_dataset y (M.map (fun m => (m, mlab))) (G, glab) K with
        | .error _ => σ
        | .ok d =>
          let σa := ((σ.alloc (.vec d.y)).alloc (.mat d.M)).alloc (.mat d.G)
          match d.K with
          | some k => σa.alloc (.mat k)
          | none => σa
    (out.1, σ1)
  | _, _ => (.error (.DimensionMismatchError "unresolved array argument"), σ)

/-
Concrete instances used by the witnesses.
-/

/-- A concrete instantiation of the external services, with fast-scan
evaluators that return one entry per candidate column and a pseudo-model
fit whose statistics differ from those of the exact fit. -/
def cExt : Externals :=
  { economic_qs := fun k => ⟨[[1]], [2]⟩
    lmmFit := fun y M QS => ⟨3, [1], 2, 3⟩
    lmmFastScan := fun st Gm => (List.replicate (ncols Gm) 0, List.replicate (ncols Gm) 0)
    glmmExpFamFit := fun y lik M QS => ⟨100, [100], 100, 100, y.map (fun _ => 1), y.map (fun _ => 2)⟩
    glmmNormalFit := fun eta tau M QS => ⟨[5], 7, 8⟩
    normalNullLml := fun g s => g.v0
    normalFastScan := fun g sc Gm => (List.replicate (ncols Gm) 0, List.replicate (ncols Gm) 0)
    normaliseVals := fun name y => y }

/-- A concrete finite outcome vector of three samples. -/
def y0 : Vec := [PyFloat.val 1, PyFloat.val 2, PyFloat.val 3]

/-- A concrete outcome vector with a NaN in it. -/
def y0n : Vec := [PyFloat.val 1, PyFloat.nan, PyFloat.val 3]

/-- A concrete three-sample two-candidate genotype matrix. -/
def G0 : Mat :=
  [[PyFloat.val 1, PyFloat.val 0],
   [PyFloat.val 0, PyFloat.val 1],
   [PyFloat.val 1, PyFloat.val 1]]

/-- Candidate labels for `G0`. -/
def glab0 : List String := ["rs0", "rs1"]

/-- A concrete 3-by-3 covariance matrix. -/
def K0 : Mat :=
  [[PyFloat.val 2, PyFloat.val 0, PyFloat.val 0],
   [PyFloat.val 0, PyFloat.val 2, PyFloat.val 0],
   [PyFloat.val 0, PyFloat.val 0, PyFloat.val 2]]

/-- A concrete well-formed store holding the caller arrays `y0` and `G0`. -/
def σ0 : Store := ⟨[(0, ArrVal.vec y0), (1, ArrVal.mat G0)], 2⟩

/-- Decidable equality of `Except` outcomes, used to evaluate concrete
witness runs. -/
instance {α β : Type} [DecidableEq α] [DecidableEq β] :
    DecidableEq (Except α β) := fun a b =>
  match a, b with
  | .ok x, .ok y =>
    if h : x = y then isTrue (by rw [h]) else isFalse (by simp [h])
  | .error x, .error y =>
    if h : x = y then isTrue (by rw [h]) else isFalse (by simp [h])
  | .ok _, .error _ => isFalse (by simp)
  | .error _, .ok _ => isFalse (by simp)

/-
Helper lemmas about the result factory and the event lists.
-/

theorem foldl_add_test_nullState (r : ST_ScanResultFactory)
    (l : List (Nat × (ℚ × ℚ))) :
    (l.foldl (fun acc ip => acc.add_test ip.1 ip.2.2 ip.2.1) r).nullState
      = r.nullState := by
  induction l generalizing r with
  | nil => rfl
  | cons a l ih =>
    rw [List.foldl_cons, ih]
    rfl

theorem foldl_add_test_candidates (r : ST_ScanResultFactory)
    (l : List (Nat × (ℚ × ℚ))) :
    (l.foldl (fun acc ip => acc.add_test ip.1 ip.2.2 ip.2.1) r).candidates
      = r.candidates := by
  induction l generalizing r with
  | nil => rfl
  | cons a l ih =>
    rw [List.foldl_cons, ih]
    rfl

theorem addTests_nullState (r : ST_ScanResultFactory) (ps : List (ℚ × ℚ)) :
    (addTests r ps).nullState = r.nullState :=
  foldl_add_test_nullState r ps.enum

theorem addTests_candidates (r : ST_ScanResultFactory) (ps : List (ℚ × ℚ)) :
    (addTests r ps).candidates = r.candidates :=
  foldl_add_test_candidates r ps.enum

theorem covarianceStep_ok_events (ext : Externals) (K : Option Mat)
    (qsev : Option QSDecomp × List Event)
    (h : covarianceStep ext K = .ok qsev) :
    qsev.2 = [] ∨ qsev.2 = [Event.factorize] := by
  cases K with
  | none =>
    simp [covarianceStep] at h
    simp [← h]
  | some k =>
    by_cases hk : is_all_finite_mat k = true
    · simp [covarianceStep, hk] at h
      simp [← h]
    · simp [covarianceStep, Bool.not_eq_true] at hk
      simp [covarianceStep, hk] at h

/-- C9: calling `st_scan` with a bare string likelihood name behaves
identically to calling it with the corresponding one-element tuple: the
string form is wrapped into a one-element tuple before name normalization,
so the two invocations produce the same outcome and the same trace. -/
theorem st_scan_string_eq_singleton_tuple
    (ext : Externals) (G : Mat) (glab : List String) (y : Vec) (s : String)
    (K : Option Mat) (M : Option Mat) (mlab : List String) (verbose : Bool) :
    st_scan ext G glab y (LikInput.str s) K M mlab verbose =
      st_scan ext G glab y (LikInput.tup s []) K M mlab verbose := rfl

/-- C7: for every fixed input, the outcome of `st_scan` (the report with
all its numerical content, or the error) is identical with `verbose` true
and with `verbose` false, and the two traces agree once display events are
removed: the verbosity toggle affects only progress display. -/
theorem st_scan_verbose_invariant
    (ext : Externals) (G : Mat) (glab : List String) (y : Vec)
    (lik : LikInput) (K : Option Mat) (M : Option Mat) (mlab : List String) :
    (st_scan ext G glab y lik K M mlab true).1 =
      (st_scan ext G glab y lik K M mlab false).1 ∧
    (st_scan ext G glab y lik K M mlab true).2.filter (fun e => !e.isDisplay) =
      (st_scan ext G glab y lik K M mlab false).2.filter (fun e => !e.isDisplay) := by
  simp only [st_scan]
  cases h1 : assert_likelihood (likResolve lik).1 with
  | error e => simp
  | ok u =>
    cases h2 : conform_dataset y (M.map fun m => (m, mlab)) (G, glab) K with
    | error e => simp [sessionEvents, Event.isDisplay]
    | ok data =>
      cases hy : is_all_finite data.y with
      | false => simp [hy, sessionEvents, Event.isDisplay]
      | true =>
        cases hM : is_all_finite_mat data.M with
        | false => simp [hy, hM, sessionEvents, Event.isDisplay]
        | true =>
          cases h3 : covarianceStep ext data.K with
          | error e => simp [hy, hM, h3, sessionEvents, Event.isDisplay]
          | ok qsev =>
            cases h4 : normalise_extreme_values ext data.y (likResolve lik) with
            | error e => simp [hy, hM, h3, h4, sessionEvents, Event.isDisplay]
            | ok ynorm =>
              have hnb : "ST_ScanResultFactory" ∉ moduleBindings := by decide
              simp [hy, hM, h3, h4, hnb, sessionEvents, Event.isDisplay]

/-- C6: the likelihood name is lower-cased before validation, and
`st_scan` proceeds exactly when the lower-cased name belongs to the fixed
set of allowed likelihoods; for any name outside that set the call fails
with the specification's `InvalidLikelihoodError` while the trace is still
empty, so before dataset conformance and before any fitting begins, and
for any name inside the set the run proceeds into dataset conformance. -/
theorem likelihood_name_validated
    (ext : Externals) (G : Mat) (glab : List String) (y : Vec)
    (lik : LikInput) (K : Option Mat) (M : Option Mat) (mlab : List String)
    (verbose : Bool) :
    (likResolve lik).1 = strLower lik.rawName ∧
    (strLower lik.rawName ∉ CONF_likelihoods →
      st_scan ext G glab y lik K M mlab verbose =
        (.error (.InvalidLikelihoodError (strLower lik.rawName)), [])) ∧
    (strLower lik.rawName ∈ CONF_likelihoods →
      Event.conform ∈ (st_scan ext G glab y lik K M mlab verbose).2) := by
  have hres : (likResolve lik).1 = strLower lik.rawName := by
    cases lik <;> rfl
  refine ⟨hres, ?_, ?_⟩
  · intro h
    simp [st_scan, assert_likelihood, hres, h]
  · intro h
    rw [← hres] at h
    simp only [st_scan]
    cases h1 : assert_likelihood (likResolve lik).1 with
    | error e => simp [assert_likelihood, h] at h1
    | ok u =>
      cases h2 : conform_dataset y (M.map fun m => (m, mlab)) (G, glab) K with
      | error e => simp [sessionEvents]
      | ok data =>
        cases hy : is_all_finite data.y with
        | false => simp [hy, sessionEvents]
        | true =>
          cases hM : is_all_finite_mat data.M with
          | false => simp [hy, hM, sessionEvents]
          | true =>
            cases h3 : covarianceStep ext data.K with
            | error e => simp [hy, hM, h3, sessionEvents]
            | ok qsev =>
              cases h4 : normalise_extreme_values ext data.y (likResolve lik) with
              | error e => simp [hy, hM, h3, h4, sessionEvents]
              | ok ynorm =>
                have hnb : "ST_ScanResultFactory" ∉ moduleBindings := by decide
                simp [hy, hM, h3, h4, hnb, sessionEvents]

/-- Witness for C6 at a concrete invalid name: a mixed-case unknown
likelihood is rejected with an empty trace, and the name seen by the
validator is the lower-cased one. -/
theorem likelihood_name_validated_witness :
    st_scan cExt G0 glab0 y0 (LikInput.str "Gamma") none none [] false =
      (.error (.InvalidLikelihoodError "gamma"), []) := by
  have h :=
    (likelihood_name_validated cExt G0 glab0 y0 (LikInput.str "Gamma")
      none none [] false).2.1 (by decide)
  simpa using h

theorem leading_no_fit (verbose : Bool) :
    ∀ e ∈ sessionEvents verbose ++ [Event.conform], e.isFit = false := by
  cases verbose <;> decide

/-- C2: with a recognised likelihood, whenever the conformed outcome `y`,
covariates `M`, or covariance `K` contain a non-finite value, `st_scan`
fails with the specification's `NonFiniteInputError` and its trace
contains no model-fitting event (`LMM.fit`, `GLMMExpFam.fit`,
`GLMMNormal.fit`): no fitting cost is paid for invalid input. -/
theorem nonfinite_input_fails_before_fit
    (ext : Externals) (G : Mat) (glab : List String) (y : Vec)
    (lik : LikInput) (K : Option Mat) (M : Option Mat) (mlab : List String)
    (verbose : Bool) (data : Dataset)
    (hname : (likResolve lik).1 ∈ CONF_likelihoods)
    (hconf : conform_dataset y (M.map fun m => (m, mlab)) (G, glab) K = .ok data)
    (hnf : is_all_finite data.y = false ∨ is_all_finite_mat data.M = false ∨
      (∃ k, data.K = some k ∧ is_all_finite_mat k = false)) :
    (∃ msg, (st_scan ext G glab y lik K M mlab verbose).1 =
      .error (.NonFiniteInputError msg)) ∧
    (∀ e ∈ (st_scan ext G glab y lik K M mlab verbose).2, e.isFit = false) := by
  have hassert : assert_likelihood (likResolve lik).1 = Except.ok () := by
    simp [assert_likelihood, hname]
  have hprefix := leading_no_fit verbose
  cases hy : is_all_finite data.y with
  | false =>
    have hr : st_scan ext G glab y lik K M mlab verbose =
        (.error (.NonFiniteInputError "Outcome must have finite values only."),
         sessionEvents verbose ++ [Event.conform]) := by
      simp [st_scan, hassert, hconf, hy]
    rw [hr]
    exact ⟨⟨_, rfl⟩, hprefix⟩
  | true =>
    cases hM2 : is_all_finite_mat data.M with
    | false =>
      have hr : st_scan ext G glab y lik K M mlab verbose =
          (.error (.NonFiniteInputError "Covariates must have finite values only."),
           sessionEvents verbose ++ [Event.conform]) := by
        simp [st_scan, hassert, hconf, hy, hM2]
      rw [hr]
      exact ⟨⟨_, rfl⟩, hprefix⟩
    | true =>
      rcases hnf with hy2 | hM3 | ⟨k, hk, hkf⟩
      · simp [hy] at hy2
      · simp [hM2] at hM3
      · have hcov : covarianceStep ext data.K =
            .error (.NonFiniteInputError "Covariate matrix must have finite values only.") := by
          simp [covarianceStep, hk, hkf]
        have hr : st_scan ext G glab y lik K M mlab verbose =
            (.error (.NonFiniteInputError "Covariate matrix must have finite values only."),
             sessionEvents verbose ++ [Event.conform]) := by
          simp [st_scan, hassert, hconf, hy, hM2, hcov]
        rw [hr]
        exact ⟨⟨_, rfl⟩, hprefix⟩

/-- Witness for C2 at a concrete input: a NaN in the outcome vector makes
the scan fail with a `NonFiniteInputError` and the trace holds no
model-fitting event. -/
theorem nonfinite_input_fails_before_fit_witness :
    (∃ msg, (st_scan cExt G0 glab0 y0n (LikInput.str "poisson") none none []
        false).1 = .error (.NonFiniteInputError msg)) ∧
    (∀ e ∈ (st_scan cExt G0 glab0 y0n (LikInput.str "poisson") none none []
        false).2, e.isFit = false) :=
  nonfinite_input_fails_before_fit cExt G0 glab0 y0n (LikInput.str "poisson")
    none none [] false ⟨y0n, onesColumn 3, ["offset"], G0, glab0, none⟩
    (by decide) rfl (Or.inl (by decide))

theorem conform_dataset_ok (y : Vec) (M : Option (Mat × List String))
    (G : Mat × List String) (K : Option Mat) (data : Dataset)
    (h : conform_dataset y M G K = .ok data) :
    data.y = y ∧ data.G = G.1 ∧ data.candidate = G.2 ∧ data.K = K := by
  simp only [conform_dataset] at h
  split at h
  · exact absurd h (by simp)
  split at h
  · exact absurd h (by simp)
  split at h
  · split at h
    · exact absurd h (by simp)
    · simp only [Except.ok.injEq] at h
      subst h
      simp
  · simp only [Except.ok.injEq] at h
    subst h
    simp

theorem covarianceStep_none_ok (ext : Externals)
    (qsev : Option QSDecomp × List Event)
    (h : covarianceStep ext none = .ok qsev) : qsev = (none, []) := by
  simp only [covarianceStep, Except.ok.injEq] at h
  exact h.symm

theorem covarianceStep_some_ok (ext : Externals) (k : Mat)
    (qsev : Option QSDecomp × List Event)
    (h : covarianceStep ext (some k) = .ok qsev) :
    qsev = (some (ext.economic_qs k), [Event.factorize]) := by
  by_cases hf : is_all_finite_mat k = true
  · simp only [covarianceStep, hf, Bool.not_true, Bool.false_eq_true,
      if_false, Except.ok.injEq] at h
    exact h.symm
  · have hf2 : is_all_finite_mat k = false := by
      simpa using hf
    simp [covarianceStep, hf2] at h

/-- C5: with otherwise-valid conformed finite inputs, the binomial
likelihood without a trial-count array fails with the specification's
`InvalidLikelihoodError`; with a single trial-count array whose length
differs from the sample count it fails with `DimensionMismatchError`; and
for every other allowed likelihood, supplying any auxiliary parameter is
rejected with `InvalidLikelihoodError`. -/
theorem binomial_aux_validation
    (ext : Externals) (G : Mat) (glab : List String) (y : Vec)
    (lik : LikInput) (K : Option Mat) (M : Option Mat) (mlab : List String)
    (verbose : Bool) (data : Dataset)
    (hconf : conform_dataset y (M.map fun m => (m, mlab)) (G, glab) K = .ok data)
    (hy : is_all_finite data.y = true)
    (hM : is_all_finite_mat data.M = true)
    (hK : ∀ k, data.K = some k → is_all_finite_mat k = true) :
    (likResolve lik = ("binomial", []) →
      (st_scan ext G glab y lik K M mlab verbose).1 =
        .error (.InvalidLikelihoodError "binomial requires a trial count array")) ∧
    (∀ t, likResolve lik = ("binomial", [t]) → t.length ≠ data.y.length →
      (st_scan ext G glab y lik K M mlab verbose).1 =
        .error (.DimensionMismatchError "trial count array length mismatch")) ∧
    (∀ name aux, likResolve lik = (name, aux) → name ∈ CONF_likelihoods →
      name ≠ "binomial" → aux ≠ [] →
      (st_scan ext G glab y lik K M mlab verbose).1 =
        .error (.InvalidLikelihoodError
          "auxiliary parameter forbidden for this likelihood")) := by
  obtain ⟨qsev, hcov⟩ : ∃ qsev, covarianceStep ext data.K = Except.ok qsev := by
    cases hdk : data.K with
    | none => exact ⟨(none, []), rfl⟩
    | some k =>
      exact ⟨(some (ext.economic_qs k), [Event.factorize]),
        by simp [covarianceStep, hK k hdk]⟩
  refine ⟨?_, ?_, ?_⟩
  · intro hlik
    have hassert : assert_likelihood (likResolve lik).1 = Except.ok () := by
      rw [hlik]
      decide
    have hnorm : normalise_extreme_values ext data.y (likResolve lik) =
        .error (.InvalidLikelihoodError "binomial requires a trial count array") := by
      rw [hlik]
      rfl
    simp [st_scan, hassert, hconf, hy, hM, hcov, hnorm]
  · intro t hlik hlen
    have hassert : assert_likelihood (likResolve lik).1 = Except.ok () := by
      rw [hlik]
      show assert_likelihood "binomial" = Except.ok ()
      decide
    have hnorm : normalise_extreme_values ext data.y (likResolve lik) =
        .error (.DimensionMismatchError "trial count array length mismatch") := by
      rw [hlik]
      simp [normalise_extreme_values, hlen]
    simp [st_scan, hassert, hconf, hy, hM, hcov, hnorm]
  · intro name aux hlik hmem hnb hne
    have hassert : assert_likelihood (likResolve lik).1 = Except.ok () := by
      rw [hlik]
      simp [assert_likelihood, hmem]
    have hnorm : normalise_extreme_values ext data.y (likResolve lik) =
        .error (.InvalidLikelihoodError
          "auxiliary parameter forbidden for this likelihood") := by
      rw [hlik]
      simp [normalise_extreme_values, hnb, hne]
    simp [st_scan, hassert, hconf, hy, hM, hcov, hnorm]

/-- Witness for C5 at a concrete input: the binomial likelihood supplied
without a trial-count array is rejected with `InvalidLikelihoodError`. -/
theorem binomial_aux_validation_witness :
    (st_scan cExt G0 glab0 y0 (LikInput.tup "binomial" []) none none []
      false).1 =
      .error (.InvalidLikelihoodError "binomial requires a trial count array") :=
  (binomial_aux_validation cExt G0 glab0 y0 (LikInput.tup "binomial" []) none
    none [] false ⟨y0, onesColumn 3, ["offset"], G0, glab0, none⟩ rfl
    (by decide) (by decide) (fun k hk => by simp at hk)).1 rfl

theorem Store.read_alloc_lt (σ : Store) (v : ArrVal) (i : Nat)
    (hi : i < σ.next) : (σ.alloc v).read i = σ.read i := by
  have hne : (σ.next == i) = false := by
    simp
    omega
  simp [Store.read, Store.alloc, List.find?, hne]

theorem Store.next_alloc (σ : Store) (v : ArrVal) :
    (σ.alloc v).next = σ.next + 1 := rfl

theorem read_alloc3 (σ : Store) (a b c : ArrVal) (i : Nat)
    (hi : i < σ.next) : (((σ.alloc a).alloc b).alloc c).read i = σ.read i := by
  rw [Store.read_alloc_lt, Store.read_alloc_lt, Store.read_alloc_lt]
  · exact hi
  · simp [Store.next_alloc]
    omega
  · simp [Store.next_alloc]
    omega

theorem read_alloc4 (σ : Store) (a b c d : ArrVal) (i : Nat)
    (hi : i < σ.next) :
    ((((σ.alloc a).alloc b).alloc c).alloc d).read i = σ.read i := by
  rw [Store.read_alloc_lt]
  · exact read_alloc3 σ a b c i hi
  · simp [Store.next_alloc]
    omega

/-- C8: `st_scan` does not mutate its caller-supplied arrays: in the
store-level model, every array object present before the call reads the
same values afterwards — dataset conformance only allocates fresh aligned
objects, and no pipeline step performs a store write — and the
per-candidate loop leaves the factory's null state and the candidate
labels untouched, so no candidate evaluation mutates the null model state
or another candidate's inputs. -/
theorem st_scan_no_mutation
    (ext : Externals) (σ : Store) (Gi : Nat) (glab : List String) (yi : Nat)
    (lik : LikInput) (Ki : Option Nat) (Mi : Option Nat) (mlab : List String)
    (verbose : Bool) (hwf : σ.WF) :
    (∀ i, i < σ.next →
      ((st_scanS ext σ Gi glab yi lik Ki Mi mlab verbose).2).read i =
        σ.read i) ∧
    (∀ r ps, (addTests r ps).nullState = r.nullState ∧
      (addTests r ps).candidates = r.candidates) := by
  constructor
  · intro i hi
    simp only [st_scanS]
    repeat' split
    all_goals first
      | rfl
      | (exact read_alloc4 σ _ _ _ _ i hi)
      | (exact read_alloc3 σ _ _ _ i hi)
  · intro r ps
    exact ⟨addTests_nullState r ps, addTests_candidates r ps⟩

/-- Witness for C8 on a concrete store: after a scan that reads the stored
`y0` and `G0`, both caller arrays read unchanged. -/
theorem st_scan_no_mutation_witness :
    (∀ i, i < σ0.next →
      ((st_scanS cExt σ0 1 glab0 0 (LikInput.str "normal") none none []
        false).2).read i = σ0.read i) ∧
    (∀ r ps, (addTests r ps).nullState = r.nullState ∧
      (addTests r ps).candidates = r.candidates) :=
  st_scan_no_mutation cExt σ0 1 glab0 0 (LikInput.str "normal") none none []
    false (show ∀ p ∈ σ0.mem, p.1 < σ0.next from by decide)

theorem assert_likelihood_error (name : String) (e : Err)
    (h : assert_likelihood name = .error e) : name ∉ CONF_likelihoods := by
  intro hm
  simp [assert_likelihood, hm] at h

/-- Classification of every run of `st_scan`: the outcome is always an
error (no run ever returns a report, because line 197 evaluates the
unbound name `ST_ScanResultFactory`), and the trace is empty for an
unrecognised likelihood name and otherwise consists of the session and
conformance events followed by at most one factorization event — exactly
one whenever `K` is provided and the inputs pass the validation preceding
line 197, none when `K` is absent. -/
theorem st_scan_run_classified
    (ext : Externals) (G : Mat) (glab : List String) (y : Vec)
    (lik : LikInput) (K : Option Mat) (M : Option Mat) (mlab : List String)
    (verbose : Bool) :
    (∃ e, (st_scan ext G glab y lik K M mlab verbose).1 = Except.error e) ∧
    (((st_scan ext G glab y lik K M mlab verbose).2 = [] ∧
        (likResolve lik).1 ∉ CONF_likelihoods) ∨
      ∃ l, (l = [] ∨ l = [Event.factorize]) ∧
        (st_scan ext G glab y lik K M mlab verbose).2 =
          sessionEvents verbose ++ [Event.conform] ++ l ∧
        (K = none → l = []) ∧
        (∀ k data, K = some k →
          conform_dataset y (M.map fun m => (m, mlab)) (G, glab) K =
            Except.ok data →
          is_all_finite data.y = true → is_all_finite_mat data.M = true →
          is_all_finite_mat k = true → l = [Event.factorize])) := by
  cases h1 : assert_likelihood (likResolve lik).1 with
  | error e =>
    exact ⟨⟨e, by simp [st_scan, h1]⟩,
      Or.inl ⟨by simp [st_scan, h1], assert_likelihood_error _ e h1⟩⟩
  | ok u =>
    cases h2 : conform_dataset y (M.map fun m => (m, mlab)) (G, glab) K with
    | error e =>
      refine ⟨⟨e, by simp [st_scan, h1, h2]⟩,
        Or.inr ⟨[], Or.inl rfl, by simp [st_scan, h1, h2], fun _ => rfl, ?_⟩⟩
      intro k data hK hconf
      simp at hconf
    | ok data =>
      have hdk : data.K = K := (conform_dataset_ok _ _ _ _ _ h2).2.2.2
      cases hy : is_all_finite data.y with
      | false =>
        refine ⟨⟨.NonFiniteInputError "Outcome must have finite values only.",
            by simp [st_scan, h1, h2, hy]⟩,
          Or.inr ⟨[], Or.inl rfl, by simp [st_scan, h1, h2, hy],
            fun _ => rfl, ?_⟩⟩
        intro k data2 hK hconf hy2 hM2 hk
        simp only [Except.ok.injEq] at hconf
        rw [← hconf] at hy2
        simp [hy] at hy2
      | true =>
        cases hM : is_all_finite_mat data.M with
        | false =>
          refine ⟨⟨.NonFiniteInputError "Covariates must have finite values only.",
              by simp [st_scan, h1, h2, hy, hM]⟩,
            Or.inr ⟨[], Or.inl rfl, by simp [st_scan, h1, h2, hy, hM],
              fun _ => rfl, ?_⟩⟩
          intro k data2 hK hconf hy2 hM2 hk
          simp only [Except.ok.injEq] at hconf
          rw [← hconf] at hM2
          simp [hM] at hM2
        | true =>
          cases h3 : covarianceStep ext data.K with
          | error e =>
            refine ⟨⟨e, by simp [st_scan, h1, h2, hy, hM, h3]⟩,
              Or.inr ⟨[], Or.inl rfl, by simp [st_scan, h1, h2, hy, hM, h3],
                fun _ => rfl, ?_⟩⟩
            intro k data2 hK hconf hy2 hM2 hk
            have hdk2 : data.K = some k := by rw [hdk, hK]
            rw [hdk2] at h3
            simp [covarianceStep, hk] at h3
          | ok qsev =>
            have hqs := covarianceStep_ok_events ext data.K qsev h3
            have hnone : K = none → qsev.2 = [] := by
              intro hK
              have hdkn : data.K = none := by rw [hdk, hK]
              rw [hdkn] at h3
              rw [covarianceStep_none_ok ext qsev h3]
            have hsome : ∀ k data2, K = some k →
                (Except.ok data : Except Err Dataset) = Except.ok data2 →
                is_all_finite data2.y = true →
                is_all_finite_mat data2.M = true →
                is_all_finite_mat k = true → qsev.2 = [Event.factorize] := by
              intro k data2 hK hconf hy2 hM2 hk
              have hdks : data.K = some k := by rw [hdk, hK]
              rw [hdks] at h3
              rw [covarianceStep_some_ok ext k qsev h3]
            cases h4 : normalise_extreme_values ext data.y (likResolve lik) with
            | error e =>
              exact ⟨⟨e, by simp [st_scan, h1, h2, hy, hM, h3, h4]⟩,
                Or.inr ⟨qsev.2, hqs,
                  by simp [st_scan, h1, h2, hy, hM, h3, h4], hnone, hsome⟩⟩
            | ok ynorm =>
              have hnb : "ST_ScanResultFactory" ∉ moduleBindings := by decide
              exact ⟨⟨.NameError "name ST_ScanResultFactory is not defined",
                  by simp [st_scan, h1, h2, hy, hM, h3, h4, hnb]⟩,
                Or.inr ⟨qsev.2, hqs,
                  by simp [st_scan, h1, h2, hy, hM, h3, h4, hnb], hnone, hsome⟩⟩

/-- C1 (code bug at line 197 of the source): for every input, `st_scan`
never returns a scan report, complete or otherwise.  Every run that
passes validation reaches line 197, where the unbound name
`ST_ScanResultFactory` (line 8 imports only `ScanResultFactory`) raises a
`NameError`; every other run fails validation earlier.  This contradicts
the claim and the module's own doctests, which show complete reports. -/
theorem st_scan_never_yields_report
    (ext : Externals) (G : Mat) (glab : List String) (y : Vec)
    (lik : LikInput) (K : Option Mat) (M : Option Mat) (mlab : List String)
    (verbose : Bool) :
    resultOk (st_scan ext G glab y lik K M mlab verbose).1 = false := by
  obtain ⟨⟨e, he⟩, -⟩ := st_scan_run_classified ext G glab y lik K M mlab verbose
  rw [he]
  rfl

/-- C3 (code bug at line 197 of the source): the dispatch at line 199 is
never reached — the `NameError` at line 197 fires first — so no run ever
takes the exact LMM path or the two-stage path: no trace contains any
fit, site-extraction, scale-anchoring or fast-scan event.  The dispatch
behaviour the claim describes (and the doctests demonstrate) cannot be
exhibited by the code as given. -/
theorem dispatch_never_reached
    (ext : Externals) (G : Mat) (glab : List String) (y : Vec)
    (lik : LikInput) (K : Option Mat) (M : Option Mat) (mlab : List String)
    (verbose : Bool) :
    (st_scan ext G glab y lik K M mlab verbose).2.all
      (fun e => !e.isDispatchPath) = true := by
  obtain ⟨-, htr⟩ := st_scan_run_classified ext G glab y lik K M mlab verbose
  rcases htr with ⟨h0, -⟩ | ⟨l, hl, htr, -, -⟩
  · rw [h0]
    rfl
  · rcases hl with rfl | rfl <;> rw [htr] <;> cases verbose <;> decide

/-- Counterexample to C4 as stated: on a concrete non-Normal (Poisson) run
with `K` provided, the trace is conformance followed by factorization and
the run then fails at line 197; the factorization event is not preceded by
any site-parameter derivation — indeed none ever occurs — so the
factorization is not deferred until after the pseudo-likelihood (eta, tau)
derivation. -/
theorem spectral_factorization_not_deferred_cex :
    factorizeDeferredAfterSiteDerivation
      (st_scan cExt G0 glab0 y0 (LikInput.str "poisson") (some K0) none []
        false).2 = false := by decide

/-- C4 (amended): per scan call, the spectral factorization of `K` runs at
most once — never when `K` is None, and exactly once when `K` is provided
and the inputs pass the validation preceding line 197 (recognised
likelihood, conformance, finiteness) — and it is never deferred: no
model-fitting event precedes it in any trace (in this code no fit or
(eta, tau) derivation is ever reached at all, since every run fails at
line 197 before the dispatch). -/
theorem spectral_factorization_once_and_eager
    (ext : Externals) (G : Mat) (glab : List String) (y : Vec)
    (lik : LikInput) (K : Option Mat) (M : Option Mat) (mlab : List String)
    (verbose : Bool) :
    (st_scan ext G glab y lik K M mlab verbose).2.count Event.factorize ≤ 1 ∧
    (K = none →
      (st_scan ext G glab y lik K M mlab verbose).2.count Event.factorize
        = 0) ∧
    (∀ k data, (likResolve lik).1 ∈ CONF_likelihoods → K = some k →
      conform_dataset y (M.map fun m => (m, mlab)) (G, glab) K =
        Except.ok data →
      is_all_finite data.y = true → is_all_finite_mat data.M = true →
      is_all_finite_mat k = true →
      (st_scan ext G glab y lik K M mlab verbose).2.count Event.factorize
        = 1) ∧
    noFitBeforeFactorize (st_scan ext G glab y lik K M mlab verbose).2
      = true := by
  obtain ⟨-, htr⟩ := st_scan_run_classified ext G glab y lik K M mlab verbose
  rcases htr with ⟨h0, hnm⟩ | ⟨l, hl, htr, hknone, hksome⟩
  · rw [h0]
    exact ⟨by simp, fun _ => by simp,
      fun k data hmem _ _ _ _ _ => absurd hmem hnm, by decide⟩
  · refine ⟨?_, ?_, ?_, ?_⟩
    · rcases hl with rfl | rfl <;> rw [htr] <;> cases verbose <;> decide
    · intro hK
      rw [htr, hknone hK]
      cases verbose <;> decide
    · intro k data hmem hK hconf hy hM hk
      rw [htr, hksome k data hK hconf hy hM hk]
      cases verbose <;> decide
    · rcases hl with rfl | rfl <;> rw [htr] <;> cases verbose <;> decide

/-- Witness for C4 (amended) on a concrete valid Poisson run with a
provided covariance: the factorization runs exactly once and no fit
precedes it. -/
theorem spectral_factorization_once_and_eager_witness :
    (st_scan cExt G0 glab0 y0 (LikInput.str "poisson") (some K0) none []
      false).2.count Event.factorize = 1 ∧
    noFitBeforeFactorize
      (st_scan cExt G0 glab0 y0 (LikInput.str "poisson") (some K0) none []
        false).2 = true := by
  have h := spectral_factorization_once_and_eager cExt G0 glab0 y0
    (LikInput.str "poisson") (some K0) none [] false
  exact ⟨h.2.2.1 K0 ⟨y0, onesColumn 3, ["offset"], G0, glab0, some K0⟩
    (by decide) rfl rfl (by decide) (by decide) (by decide), h.2.2.2⟩

/-- C10 (code bug at line 197 of the source): the null-state storage at
line 253 never executes.  On a concrete valid Poisson run with a provided
covariance the call fails with the line-197 `NameError` right after
conformance and factorization; no report, and hence no null state taken
from any model, is ever produced. -/
theorem glmm_null_state_never_stored :
    st_scan cExt G0 glab0 y0 (LikInput.str "poisson") (some K0) none []
      false =
      (.error (.NameError "name ST_ScanResultFactory is not defined"),
       [Event.conform, Event.factorize]) := by decide

end Limix
